import Mathlib

/-!
Verification of the suggestion-bot moderation core (src/db_utils.py, src/main.py).

The Python sources are shallowly embedded as pure Lean functions:

* the sqlite block store (`blocked_users` table) becomes a list of blocked ids
  with insert-or-ignore / delete operations (`block_user`, `unban_user`,
  `is_user_blocked`);
* each aiogram handler becomes a function from its inputs (message or callback,
  configuration, store, session store) to a list of transport `Effect`s plus the
  updated store/session state; outbound transport calls whose success the
  program cannot control (send, delete, edit, database commit) are resolved by
  an explicit `Oracle` argument, mirroring the `try/except` branches;
* aiogram's FSM context (keyed by chat id and user id, as in the default
  `USER_IN_CHAT` strategy) becomes an association list `Sessions`;
* the dispatcher's registration order of the message handlers in src/main.py
  (handle_start, handle_suggestion, cancel_reply_state,
  process_admin_group_reply, handle_unban_command) becomes the first-match-wins
  router `dispatchMessage` / `stepMessage`, and the callback handlers'
  `F.data.startswith` filters become `stepCallback`.

Python-specific semantics are modelled explicitly: truthiness of ints and
strings (`truthyO`, `pyStrOr`), `str.split(sep)[0]` (`split0`),
`str.split()` (`pySplitWs`), and `int(...)` parsing (`pyInt?`).
-/

namespace Predlozka

/-! ### Generic string helpers (Python string semantics on `List Char`) -/

/-- `beginsWith pat l` is true iff `pat` is an initial segment of `l`. -/
def beginsWith : List Char → List Char → Bool
  | [], _ => true
  | _ :: _, [] => false
  | p :: ps, c :: cs => p == c && beginsWith ps cs

/-- Part of `l` strictly before the first occurrence of `sep`
(Python `l.split(sep)[0]` for a nonempty `sep`). -/
def split0 (sep : List Char) : List Char → List Char
  | [] => []
  | c :: cs => if beginsWith sep (c :: cs) then [] else c :: split0 sep cs

/-- Whether `sep` occurs anywhere in `l`. -/
def containsSeq (sep : List Char) : List Char → Bool
  | [] => false
  | c :: cs => beginsWith sep (c :: cs) || containsSeq sep cs

/-- `s.startswith(pre)` on Lean strings, computed on the character lists. -/
def strStarts (s pre : String) : Bool := beginsWith pre.data s.data

/-- Drop the first `n` characters of a string. -/
def strDrop (s : String) (n : Nat) : String := String.mk (s.data.drop n)

/-- Python truthiness of an optional string with a fallback (`a or b`):
`None` and the empty string are falsy. -/
def pyStrOr (a : Option String) (b : String) : String :=
  match a with
  | some s => if s.data.isEmpty then b else s
  | none => b

/-- Python truthiness of an optional integer: `None` and `0` are falsy. -/
def truthyO : Option Int → Bool
  | none => false
  | some n => !(n == 0)

def isWsChar (c : Char) : Bool := c == ' ' || c == '\n' || c == '\t' || c == '\r'

/-- Strip leading and trailing whitespace. -/
def wsTrim (l : List Char) : List Char :=
  ((l.dropWhile isWsChar).reverse.dropWhile isWsChar).reverse

def digitVal (c : Char) : Nat := c.toNat - '0'.toNat

/-- Digit-sequence parser for Python `int()`: digits with single underscores
allowed between digits. -/
def pyDigitsGo : Nat → List Char → Option Nat
  | acc, [] => some acc
  | acc, '_' :: c :: rest =>
      if c.isDigit then pyDigitsGo (acc * 10 + digitVal c) rest else none
  | _, ['_'] => none
  | acc, c :: rest =>
      if c.isDigit then pyDigitsGo (acc * 10 + digitVal c) rest else none

def pyDigits : List Char → Option Nat
  | [] => none
  | c :: rest => if c.isDigit then pyDigitsGo (digitVal c) rest else none

/-- Python `int(s)`: strips whitespace, allows an optional sign, then a
digit sequence; `none` models the `ValueError`. -/
def pyInt? (s : String) : Option Int :=
  match wsTrim s.data with
  | '+' :: rest => (pyDigits rest).map (fun n => (n : Int))
  | '-' :: rest => (pyDigits rest).map (fun n => -(n : Int))
  | l => (pyDigits l).map (fun n => (n : Int))

/-- Python `s.split()`: split on whitespace runs, discarding empty parts. -/
def splitWsAux : List Char → List Char → List (List Char)
  | [], acc => if acc.isEmpty then [] else [acc.reverse]
  | c :: r, acc =>
      if isWsChar c then
        if acc.isEmpty then splitWsAux r [] else acc.reverse :: splitWsAux r []
      else splitWsAux r (c :: acc)

def pySplitWs (s : String) : List String := (splitWsAux s.data []).map String.mk

/-! ### Block store (src/db_utils.py)

The sqlite table `blocked_users (user_id INTEGER PRIMARY KEY)` is a set of
ids, modelled as the list of its rows.  Each operation opens its own
connection; a persistence failure is modelled by the Boolean `dbFail`
argument, mirroring the `except Exception` branches. -/

abbrev BlockDB := List Int

/-- `SELECT 1 FROM blocked_users WHERE user_id = ?` (src/db_utils.py
`is_user_blocked`): membership test, total for unknown ids. -/
def is_user_blocked (db : BlockDB) (user_id : Int) : Bool :=
  decide (user_id ∈ db)

/-- `INSERT OR IGNORE INTO blocked_users` (src/db_utils.py `block_user`):
inserts if absent, no-op on duplicates; on a persistence failure the
exception is caught and logged, leaving the store unchanged, and no error
is reported to the caller (the function returns `None` either way). -/
def block_user (dbFail : Bool) (db : BlockDB) (user_id : Int) : BlockDB :=
  if dbFail then db
  else if user_id ∈ db then db else db ++ [user_id]

/-- `DELETE FROM blocked_users WHERE user_id = ?` (src/db_utils.py
`unban_user`): removes the id and returns `rowcount > 0`; on a persistence
failure the exception is caught and `False` is returned. -/
def unban_user (dbFail : Bool) (db : BlockDB) (user_id : Int) : BlockDB × Bool :=
  if dbFail then (db, false)
  else (db.filter (fun x => decide (x ≠ user_id)), decide (user_id ∈ db))

/-! ### Data model of src/main.py -/

/-- Startup configuration (`ADMIN_IDS`, `TARGET_GROUP_ID`): the group id is
`none` when `MODERATION_GROUP_ID` is unset or malformed. -/
structure Config where
  ADMIN_IDS : List Int
  TARGET_GROUP_ID : Option Int
deriving DecidableEq

/-- An inbound message event with its sender metadata. -/
structure Msg where
  from_id : Int
  chat_id : Int
  message_id : Int
  text : Option String
  photo : Bool
  caption : Option String
  full_name : String
  username : Option String
deriving DecidableEq

/-- The message a callback query is attached to. -/
structure CbMsg where
  chat_id : Int
  message_id : Int
  text : Option String
  caption : Option String
  photo : Bool
deriving DecidableEq

/-- An inbound callback-query event (`callback.data` carries the action token). -/
structure Callback where
  from_id : Int
  from_name : String
  from_username : Option String
  data : String
  message : Option CbMsg
deriving DecidableEq

/-- The FSM data recorded by `state.update_data` in `handle_admin_action`;
each field may be absent (`state.get_data().get(...)` returns `None`). -/
structure StateData where
  target_user_id : Option Int
  group_chat_id : Option Int
  prompt_message_id : Option Int
  original_message_id : Option Int
  admin_id : Option Int
deriving DecidableEq

/-- `all([...])` over the five recorded fields in `process_admin_group_reply`:
Python truthiness, so an absent field or a `0` counts as incomplete. -/
def sessionComplete (d : StateData) : Bool :=
  truthyO d.target_user_id && truthyO d.group_chat_id &&
    truthyO d.prompt_message_id && truthyO d.original_message_id &&
    truthyO d.admin_id

/-- Inline keyboards attached by the handlers: the default Reply/Block pair or
the single Unban button. -/
inductive Kb where
  | replyBlock (uid : Int)
  | unbanOnly (uid : Int)
deriving DecidableEq

/-- Observable transport calls made by the handlers, in program order.
`sendMessage` is `bot.send_message`, `replyMessage` is
`message.answer`/`message.reply` (both target the incoming message's chat),
`clearState` marks `state.clear()`. -/
inductive Effect where
  | sendMessage (chat_id : Int) (text : String)
  | replyMessage (chat_id : Int) (text : String)
  | forwardSuggestion (chat_id : Int) (body : String) (kb : Kb) (isPhoto : Bool)
  | answerCallback (text : String) (show_alert : Bool)
  | deleteMessage (chat_id : Int) (message_id : Int)
  | clearMarkup (chat_id : Int) (message_id : Int)
  | editMessage (chat_id : Int) (message_id : Int) (text : String) (kb : Kb)
  | clearState
deriving DecidableEq

/-- Whether an effect is a `bot.send_message` call (the only way a reply body
reaches a target sender's private chat). -/
def Effect.isSend : Effect → Bool
  | .sendMessage _ _ => true
  | _ => false

/-- Whether an effect is a `message.answer`/`message.reply` to the incoming
message's chat. -/
def Effect.isReply : Effect → Bool
  | .replyMessage _ _ => true
  | _ => false

/-- Outcome of forwarding a suggestion to the moderation group: success, the
two `TelegramAPIError` texts the code distinguishes, another
`TelegramAPIError`, or a non-Telegram exception. -/
inductive DeliveryOutcome where
  | ok
  | chatNotFound
  | botKicked
  | otherApi
  | unknownErr
deriving DecidableEq

/-- Resolution of the transport and persistence calls a handler run makes,
standing in for the `try/except` branches. -/
structure Oracle where
  forwardOutcome : DeliveryOutcome
  replyDeliveryOk : Bool
  promptSendOk : Bool
  promptMessageId : Int
  dbFail : Bool
  fetchedText : Option String
  fetchedCaption : Option String
deriving DecidableEq

/-- aiogram FSM storage with the default `USER_IN_CHAT` strategy: one record
per (chat id, user id) key. -/
abbrev Sessions := List ((Int × Int) × StateData)

def getSession (ss : Sessions) (k : Int × Int) : Option StateData :=
  match ss.find? (fun e => e.1.1 == k.1 && e.1.2 == k.2) with
  | some e => some e.2
  | none => none

def removeSession (ss : Sessions) (k : Int × Int) : Sessions :=
  ss.filter (fun e => !(e.1.1 == k.1 && e.1.2 == k.2))

def setSession (ss : Sessions) (k : Int × Int) (d : StateData) : Sessions :=
  (k, d) :: removeSession ss k

def setSessionOpt (ss : Sessions) (k : Int × Int) : Option StateData → Sessions
  | none => removeSession ss k
  | some d => setSession ss k d

/-! ### Pure text operations of src/main.py -/

/-- `get_admin_mention` (src/main.py:69): `@username` when available, else
`user.mention_html(user.full_name)`. -/
def get_admin_mention (id : Int) (full_name : String) (username : Option String) : String :=
  match username with
  | some u => "@" ++ u
  | none => "<a href=\"tg://user?id=" ++ toString id ++ "\">" ++ full_name ++ "</a>"

/-- The status separator `'\n\n---'` used by `split('\n\n---')[0]` at
src/main.py:91, 243 and 324. -/
def sepChars : List Char := ['\n', '\n', '-', '-', '-']

/-- Strip any previously appended status suffix:
`text.split('\n\n---')[0]`. -/
def strip_status (t : String) : String := String.mk (split0 sepChars t.data)

/-- Whether a text already contains the status separator. -/
def hasSep (t : String) : Bool := containsSeq sepChars t.data

/-- One status transition on a rendered body:
`f"{original_content}\n\n---\n{status_text}"` after stripping, as in
`edit_original_message_status`, `handle_admin_action` and
`handle_unban_button`. -/
def edit_status_text (t status_text : String) : String :=
  strip_status t ++ "\n\n---\n" ++ status_text

/-- Header composed by `handle_suggestion` (src/main.py:165-168). -/
def mkUserInfo (msg : Msg) : String :=
  "📝 New suggestion from: " ++ msg.full_name ++
    (match msg.username with
     | some u => " (@" ++ u ++ ")"
     | none => "") ++
    "\nID: <code>" ++ toString msg.from_id ++ "</code>"

/-- Rendered body of a forwarded text suggestion:
`f"{user_info}\n\n{message.text}"`. -/
def suggestionBody (msg : Msg) : String :=
  mkUserInfo msg ++ "\n\n" ++ (msg.text.getD "")

/-- `edit_original_message_status` (src/main.py:82): clear the reply markup
(which returns the message, whose current text/caption the oracle supplies),
strip any previous suffix, append the new status and re-attach the default
Reply/Block keyboard.  Edit failures are caught and only logged. -/
def edit_original_message_status (chat_id message_id : Int) (status_text : String)
    (target_user_id : Int) (o : Oracle) : List Effect :=
  let body := pyStrOr o.fetchedText
    (pyStrOr o.fetchedCaption ("Suggestion from ID: <code>" ++ toString target_user_id ++ "</code>"))
  [Effect.clearMarkup chat_id message_id,
   Effect.editMessage chat_id message_id (edit_status_text body status_text)
     (Kb.replyBlock target_user_id)]

/-! ### Message handlers (src/main.py), in registration order -/

/-- `handle_start` (src/main.py:122): `/start` greeting, with the
blocked-sender short-circuit first. -/
def handle_start (cfg : Config) (db : BlockDB) (msg : Msg) : List Effect :=
  if is_user_blocked db msg.from_id then
    [Effect.replyMessage msg.chat_id "Sorry, you have been blocked and cannot send suggestions."]
  else if cfg.ADMIN_IDS.contains msg.from_id then
    [Effect.replyMessage msg.chat_id "Hello, Admin! 👋\nYou can manage suggestions in the moderation group.\nUse /unban <code>user_id</code> to unblock a user."]
  else
    [Effect.replyMessage msg.chat_id "Hello! 👋\nSend your suggestion as text. You can also attach one screenshot (send a photo with a caption)."]

/-- `handle_suggestion` (src/main.py:147): admins are silently dropped,
blocked senders rejected, then the suggestion is forwarded to the moderation
group with the Reply/Block keyboard; the sender gets an apology on failure
(distinguishing the chat-not-found/kicked case) or one acknowledgment on
success.  Returns the effects and the (untouched) block store. -/
def handle_suggestion (cfg : Config) (db : BlockDB) (msg : Msg) (o : Oracle) :
    List Effect × BlockDB :=
  if cfg.ADMIN_IDS.contains msg.from_id then ([], db)
  else if is_user_blocked db msg.from_id then
    ([Effect.replyMessage msg.chat_id "Sorry, you have been blocked and cannot send suggestions."], db)
  else if !(truthyO cfg.TARGET_GROUP_ID) then
    ([Effect.replyMessage msg.chat_id "Sorry, there was an error sending your suggestion (admin configuration issue). Please try again later."], db)
  else
    let gid := cfg.TARGET_GROUP_ID.getD 0
    let info := mkUserInfo msg
    let kb := Kb.replyBlock msg.from_id
    let attempt : List Effect :=
      if msg.photo then
        [Effect.forwardSuggestion gid (info ++ "\n\n" ++ pyStrOr msg.caption "") kb true]
      else if msg.text.isSome then
        [Effect.forwardSuggestion gid (suggestionBody msg) kb false]
      else []
    let attempted := msg.photo || msg.text.isSome
    let after : List Effect :=
      if !attempted then []
      else
        match o.forwardOutcome with
        | .ok => [Effect.replyMessage msg.chat_id "Thank you! Your suggestion has been sent to the administration."]
        | .chatNotFound => [Effect.replyMessage msg.chat_id "Sorry, could not send your suggestion. There might be an issue with the moderation group."]
        | .botKicked => [Effect.replyMessage msg.chat_id "Sorry, could not send your suggestion. There might be an issue with the moderation group."]
        | .otherApi => [Effect.replyMessage msg.chat_id "Sorry, a technical error occurred while sending your suggestion. Please try again later."]
        | .unknownErr => [Effect.replyMessage msg.chat_id "Sorry, an unexpected error occurred while sending your suggestion."]
    (attempt ++ after, db)

/-- `cancel_reply_state` (src/main.py:352): the `/cancel` command while a
session is recorded.  On an owner or chat mismatch the state is untouched and
only the triggering message is deleted (src/main.py:369); on a match the
session is cleared, the prompt and the command are deleted, a confirmation is
sent and the original suggestion's status is rewritten. -/
def cancel_reply_state (msg : Msg) (data : StateData) (o : Oracle) :
    List Effect × Option StateData :=
  if some msg.from_id ≠ data.admin_id ∨ some msg.chat_id ≠ data.group_chat_id then
    ([Effect.deleteMessage msg.chat_id msg.message_id], some data)
  else
    let targetStr := match data.target_user_id with
      | some n => toString n
      | none => "unknown"
    let mention := get_admin_mention msg.from_id msg.full_name msg.username
    (Effect.clearState ::
       Effect.deleteMessage msg.chat_id (data.prompt_message_id.getD 0) ::
       Effect.deleteMessage msg.chat_id msg.message_id ::
       Effect.sendMessage msg.chat_id
         ("Reply action for user <code>" ++ targetStr ++ "</code> cancelled by " ++ mention) ::
       (if truthyO data.original_message_id && truthyO data.group_chat_id then
          edit_original_message_status msg.chat_id (data.original_message_id.getD 0)
            ("❌ Reply cancelled by Admin " ++ mention) (data.target_user_id.getD 0) o
        else []),
     none)

/-- `process_admin_group_reply` (src/main.py:394): free text while a session
is recorded.  Incomplete state data clears the session; a wrong admin or chat
is ignored (src/main.py:415-417); a command is ignored; otherwise the session
is cleared first (src/main.py:424) and only then is the reply delivery to the
target attempted (src/main.py:429), followed by failure notification, prompt
cleanup and the status rewrite. -/
def process_admin_group_reply (msg : Msg) (data : StateData) (o : Oracle) :
    List Effect × Option StateData :=
  let txt := msg.text.getD ""
  if !(sessionComplete data) then ([Effect.clearState], none)
  else if some msg.chat_id ≠ data.group_chat_id ∨ some msg.from_id ≠ data.admin_id then
    ([], some data)
  else if strStarts txt "/" then ([], some data)
  else
    let tgt := data.target_user_id.getD 0
    let mention := get_admin_mention msg.from_id msg.full_name msg.username
    let statusText :=
      if o.replyDeliveryOk then "✅ Replied by Admin " ++ mention
      else "⚠️ Reply failed by Admin " ++ mention ++ " (User unreachable?)"
    let notifyFail : List Effect :=
      if o.replyDeliveryOk then []
      else [Effect.sendMessage msg.chat_id
        ("⚠️ " ++ mention ++ ", could not send reply to user <code>" ++ toString tgt ++ "</code>. They might have blocked the bot.")]
    ((Effect.clearState ::
        Effect.sendMessage tgt ("ℹ️ Reply from Administration:\n\n" ++ txt) ::
        notifyFail) ++
       [Effect.deleteMessage msg.chat_id (data.prompt_message_id.getD 0),
        Effect.deleteMessage msg.chat_id msg.message_id] ++
       edit_original_message_status msg.chat_id (data.original_message_id.getD 0) statusText tgt o,
     none)

/-- `handle_unban_command` (src/main.py:454): `/unban <id>` from an admin;
non-admins are silently ignored. -/
def handle_unban_command (cfg : Config) (db : BlockDB) (msg : Msg) (o : Oracle) :
    List Effect × BlockDB :=
  if !(cfg.ADMIN_IDS.contains msg.from_id) then ([], db)
  else
    let parts := pySplitWs (msg.text.getD "")
    if parts.length ≠ 2 then
      ([Effect.replyMessage msg.chat_id "Usage: /unban <code>user_id</code>"], db)
    else
      match pyInt? (parts.getD 1 "") with
      | none => ([Effect.replyMessage msg.chat_id "Invalid User ID. Please provide a number."], db)
      | some uid =>
          let r := unban_user o.dbFail db uid
          if r.2 then
            ([Effect.replyMessage msg.chat_id ("✅ User <code>" ++ toString uid ++ "</code> has been unblocked.")], r.1)
          else
            ([Effect.replyMessage msg.chat_id ("⚠️ User <code>" ++ toString uid ++ "</code> was not found in the block list or an error occurred.")], r.1)

/-! ### Callback handlers (src/main.py) -/

/-- `handle_admin_action` (src/main.py:209): a `reply_<id>`/`block_<id>`
button.  After the admin and group checks the target id is parsed from the
token (`callback.data.split("_", 1)` then `int`, so everything after the
first underscore, i.e. after the six-character prefix); a parse failure is
answered with a visible error and dropped.  The block branch mutates the
store, always answers with the blocked confirmation, and rewrites the message
with the Unban keyboard; the reply branch opens a session for
(group chat, admin) or clears it when the prompt cannot be sent. -/
def handle_admin_action (cfg : Config) (db : BlockDB) (ss : Sessions)
    (cb : Callback) (o : Oracle) : List Effect × BlockDB × Sessions :=
  if !(cfg.ADMIN_IDS.contains cb.from_id) then
    ([Effect.answerCallback "This action is only available to administrators." true], db, ss)
  else
    match cb.message with
    | none => ([Effect.answerCallback "This action must be performed in the moderation group." true], db, ss)
    | some m =>
      if cfg.TARGET_GROUP_ID ≠ some m.chat_id then
        ([Effect.answerCallback "This action must be performed in the moderation group." true], db, ss)
      else
        match pyInt? (strDrop cb.data 6) with
        | none => ([Effect.answerCallback "Error: Invalid user ID." true], db, ss)
        | some uid =>
          let mention := get_admin_mention cb.from_id cb.from_name cb.from_username
          if strStarts cb.data "block_" then
            let db' := block_user o.dbFail db uid
            let body := pyStrOr m.text
              (pyStrOr m.caption ("Suggestion from ID: <code>" ++ toString uid ++ "</code>"))
            ([Effect.answerCallback ("User " ++ toString uid ++ " blocked.") true,
              Effect.editMessage m.chat_id m.message_id
                (edit_status_text body ("🚫 User blocked by Admin " ++ mention))
                (Kb.unbanOnly uid)],
             db', ss)
          else
            let promptText := mention ++ ", please send your reply for user ID <code>" ++ toString uid ++ "</code> in this chat.\nSend /cancel to abort."
            if o.promptSendOk then
              ([Effect.sendMessage m.chat_id promptText,
                Effect.answerCallback "Please send your reply in this chat." false],
               db,
               setSession ss (m.chat_id, cb.from_id)
                 { target_user_id := some uid, group_chat_id := some m.chat_id,
                   prompt_message_id := some o.promptMessageId,
                   original_message_id := some m.message_id,
                   admin_id := some cb.from_id })
            else
              ([Effect.sendMessage m.chat_id promptText,
                Effect.answerCallback "Error: Could not send reply prompt." true],
               db, removeSession ss (m.chat_id, cb.from_id))

/-- `handle_unban_button` (src/main.py:294): an `unban_<id>` button; on a
successful removal the message is rewritten back to the Reply/Block keyboard,
otherwise a not-found answer is shown. -/
def handle_unban_button (cfg : Config) (db : BlockDB) (ss : Sessions)
    (cb : Callback) (o : Oracle) : List Effect × BlockDB × Sessions :=
  if !(cfg.ADMIN_IDS.contains cb.from_id) then
    ([Effect.answerCallback "This action is only available to administrators." true], db, ss)
  else
    match cb.message with
    | none => ([Effect.answerCallback "This action must be performed in the moderation group." true], db, ss)
    | some m =>
      if cfg.TARGET_GROUP_ID ≠ some m.chat_id then
        ([Effect.answerCallback "This action must be performed in the moderation group." true], db, ss)
      else
        match pyInt? (strDrop cb.data 6) with
        | none => ([Effect.answerCallback "Error: Invalid user ID." true], db, ss)
        | some uid =>
          let r := unban_user o.dbFail db uid
          if r.2 then
            let mention := get_admin_mention cb.from_id cb.from_name cb.from_username
            let body := pyStrOr m.text (pyStrOr m.caption "")
            ([Effect.answerCallback ("User " ++ toString uid ++ " has been unblocked.") true,
              Effect.editMessage m.chat_id m.message_id
                (edit_status_text body ("🟢 User unblocked by Admin " ++ mention))
                (Kb.replyBlock uid)],
             r.1, ss)
          else
            ([Effect.answerCallback ("User " ++ toString uid ++ " was not found in the block list or could not be unblocked.") true],
             r.1, ss)

/-! ### Router -/

def isStartCmd (msg : Msg) : Bool :=
  match msg.text with
  | some t => t == "/start" || strStarts t "/start "
  | none => false

def isCancelCmd (msg : Msg) : Bool :=
  match msg.text with
  | some t => t == "/cancel" || strStarts t "/cancel "
  | none => false

def isUnbanCmd (msg : Msg) : Bool :=
  match msg.text with
  | some t => t == "/unban" || strStarts t "/unban "
  | none => false

/-- Which message handler an inbound message reaches. -/
inductive Route where
  | start
  | suggestion
  | cancelReply
  | processReply
  | unbanCmd
  | unmatched
deriving DecidableEq

/-- First-match-wins dispatch over the message handlers, in their registration
order in src/main.py: `handle_start` (`CommandStart`), `handle_suggestion`
(`F.text | F.photo` with `StateFilter(None)`), `cancel_reply_state`
(`Command("cancel")` in the awaiting state), `process_admin_group_reply`
(awaiting state with `F.text`), `handle_unban_command` (`Command("unban")`).
`sess` is the FSM record for the (chat, sender) key. -/
def dispatchMessage (sess : Option StateData) (msg : Msg) : Route :=
  if isStartCmd msg then Route.start
  else if (msg.text.isSome || msg.photo) && sess.isNone then Route.suggestion
  else if isCancelCmd msg && sess.isSome then Route.cancelReply
  else if sess.isSome && msg.text.isSome then Route.processReply
  else if isUnbanCmd msg then Route.unbanCmd
  else Route.unmatched

/-- One router step for an inbound message: dispatch to the first matching
handler and thread the block store and session store through it. -/
def stepMessage (cfg : Config) (db : BlockDB) (ss : Sessions) (msg : Msg)
    (o : Oracle) : List Effect × BlockDB × Sessions :=
  let key := (msg.chat_id, msg.from_id)
  let sess := getSession ss key
  match dispatchMessage sess msg with
  | Route.start => (handle_start cfg db msg, db, ss)
  | Route.suggestion =>
      let r := handle_suggestion cfg db msg o
      (r.1, r.2, ss)
  | Route.cancelReply =>
      match sess with
      | some data =>
          let r := cancel_reply_state msg data o
          (r.1, db, setSessionOpt ss key r.2)
      | none => ([], db, ss)
  | Route.processReply =>
      match sess with
      | some data =>
          let r := process_admin_group_reply msg data o
          (r.1, db, setSessionOpt ss key r.2)
      | none => ([], db, ss)
  | Route.unbanCmd =>
      let r := handle_unban_command cfg db msg o
      (r.1, r.2, ss)
  | Route.unmatched => ([], db, ss)

/-- One router step for a callback query: the `F.data.startswith` filters of
`handle_admin_action` and `handle_unban_button`; any other token matches no
handler and is dropped. -/
def stepCallback (cfg : Config) (db : BlockDB) (ss : Sessions) (cb : Callback)
    (o : Oracle) : List Effect × BlockDB × Sessions :=
  if strStarts cb.data "reply_" || strStarts cb.data "block_" then
    handle_admin_action cfg db ss cb o
  else if strStarts cb.data "unban_" then
    handle_unban_button cfg db ss cb o
  else ([], db, ss)

/-! ### Concrete fixtures for closed instances -/

def oracle0 : Oracle :=
  { forwardOutcome := .ok, replyDeliveryOk := true, promptSendOk := true,
    promptMessageId := 77, dbFail := false,
    fetchedText := some "rendered body", fetchedCaption := none }

def cfg0 : Config := { ADMIN_IDS := [1, 2], TARGET_GROUP_ID := some (-100) }

/-- A complete session recorded for admin 1 in group -100, targeting sender 111. -/
def data0 : StateData :=
  { target_user_id := some 111, group_chat_id := some (-100),
    prompt_message_id := some 7, original_message_id := some 8,
    admin_id := some 1 }

/-- Session store holding only admin 1's open session in group -100. -/
def ssA : Sessions := [(((-100 : Int), (1 : Int)), data0)]

/-- Admin 2's stray free text in the moderation group. -/
def msgB : Msg :=
  { from_id := 2, chat_id := -100, message_id := 50, text := some "hey there",
    photo := false, caption := none, full_name := "Bea", username := some "bea" }

/-- Admin 1's reply text in the moderation group. -/
def msgA : Msg :=
  { from_id := 1, chat_id := -100, message_id := 51, text := some "Thanks, fixed!",
    photo := false, caption := none, full_name := "Al", username := some "al" }

/-- A sender whose suggestion text starts with the separator tail. -/
def msgC3 : Msg :=
  { from_id := 42, chat_id := 42, message_id := 1, text := some "---stripped",
    photo := false, caption := none, full_name := "Bob", username := none }

/-- An admin's `/unban 111` command with no open session. -/
def msgUnban : Msg :=
  { from_id := 1, chat_id := -100, message_id := 10, text := some "/unban 111",
    photo := false, caption := none, full_name := "Mod", username := none }

/-- An ordinary non-blocked sender's text suggestion. -/
def msgSender : Msg :=
  { from_id := 500, chat_id := 500, message_id := 3, text := some "Add dark mode",
    photo := false, caption := none, full_name := "Alice", username := none }

/-- Admin 2's `/cancel` while only admin 1's session is open. -/
def msgCancelWrong : Msg :=
  { from_id := 2, chat_id := -100, message_id := 60, text := some "/cancel",
    photo := false, caption := none, full_name := "Bea", username := some "bea" }

/-- Admin 1's `/cancel` of their own session, in the recorded chat. -/
def msgCancelOwn : Msg :=
  { from_id := 1, chat_id := -100, message_id := 61, text := some "/cancel",
    photo := false, caption := none, full_name := "Al", username := some "al" }

def cbMsg0 : CbMsg :=
  { chat_id := -100, message_id := 9, text := some "rendered body",
    caption := none, photo := false }

/-- A well-formed Block button press by admin 1. -/
def cbBlock : Callback :=
  { from_id := 1, from_name := "Al", from_username := some "al",
    data := "block_5", message := some cbMsg0 }

/-- A Reply button press whose token id does not parse. -/
def cbBadId : Callback :=
  { from_id := 1, from_name := "Al", from_username := some "al",
    data := "reply_abc", message := some cbMsg0 }

/-- A callback token matching none of the registered action shapes. -/
def cbGarbage : Callback :=
  { from_id := 1, from_name := "Al", from_username := some "al",
    data := "mystery", message := some cbMsg0 }

/-- Oracle with a failing persistence layer. -/
def oracleDbFail : Oracle := { oracle0 with dbFail := true }

/-- Oracle whose forward to the moderation group fails with "chat not found". -/
def oracleCfgFail : Oracle := { oracle0 with forwardOutcome := .chatNotFound }

/-! ### Lemmas about the status separator -/

/-- `split0` returns an initial segment of its input. -/
lemma split0_eta (sep : List Char) (l : List Char) :
    ∃ r, l = split0 sep l ++ r := by
  induction l with
  | nil => exact ⟨[], rfl⟩
  | cons c cs ih =>
    cases hb : beginsWith sep (c :: cs) with
    | true => exact ⟨c :: cs, by simp [split0, hb]⟩
    | false =>
      obtain ⟨r, hr⟩ := ih
      refine ⟨r, ?_⟩
      simp only [split0, hb, Bool.false_eq_true, if_false, List.cons_append]
      exact congrArg (c :: ·) hr

/-- `beginsWith` only inspects the first `pat.length` characters. -/
lemma beginsWith_append_congr (pat : List Char) :
    ∀ (u v w : List Char), pat.length ≤ u.length →
      beginsWith pat (u ++ v) = beginsWith pat (u ++ w) := by
  induction pat with
  | nil => intro u v w _; simp [beginsWith]
  | cons p ps ih =>
    intro u v w h
    cases u with
    | nil => simp at h
    | cons a as =>
      simp only [List.cons_append, beginsWith, List.append_eq]
      rw [ih as v w (by simpa using h)]

def sepTail : List Char := ['\n', '-', '-', '-']

/-- No occurrence of `['\n','-','-','-']` can start inside the last three
characters before the appended suffix `"\n\n---"`: the suffix's own shape
rules out every overlap. -/
lemma beginsWith_sepTail_short (q σ : List Char) (h : q.length ≤ 3) :
    beginsWith sepTail (q ++ '\n' :: '\n' :: '-' :: '-' :: '-' :: σ) = false := by
  have hnn : (('-' : Char) == '\n') = false := by decide
  have hdn : (('\n' : Char) == '-') = false := by decide
  rcases q with _ | ⟨a, _ | ⟨b, _ | ⟨c, _ | ⟨d, t⟩⟩⟩⟩
  · simp [sepTail, beginsWith, hnn]
  · simp [sepTail, beginsWith, hnn]
  · simp [sepTail, beginsWith, hnn]
  · simp [sepTail, beginsWith, hdn]
  · simp at h

/-- Appending `"\n\n---" ++ σ` after the separator-free part of `t` creates no
occurrence of `sepTail` that `t` itself did not have at its start. -/
lemma beginsWith_sepTail_split0 (t σ : List Char)
    (h : beginsWith sepTail t = false) :
    beginsWith sepTail (split0 sepChars t ++ '\n' :: '\n' :: '-' :: '-' :: '-' :: σ) = false := by
  obtain ⟨r, hr⟩ := split0_eta sepChars t
  by_cases hl : (split0 sepChars t).length ≤ 3
  · exact beginsWith_sepTail_short _ _ hl
  · have h4 : sepTail.length ≤ (split0 sepChars t).length := by
      simp only [sepTail, List.length_cons, List.length_nil]
      omega
    rw [beginsWith_append_congr sepTail (split0 sepChars t)
      ('\n' :: '\n' :: '-' :: '-' :: '-' :: σ) r h4, ← hr]
    exact h

/-- Stripping is stable under appending a fresh `"\n\n---" ++ σ` suffix after
the stripped part: the first occurrence of the separator in the result is
exactly the appended one. -/
lemma split0_append_sep (l σ : List Char) :
    split0 sepChars (split0 sepChars l ++ '\n' :: '\n' :: '-' :: '-' :: '-' :: σ) =
      split0 sepChars l := by
  induction l with
  | nil => simp [split0, sepChars, beginsWith]
  | cons c cs ih =>
    cases hb : beginsWith sepChars (c :: cs) with
    | true =>
      simp only [split0, hb, if_true, List.nil_append]
      simp [split0, sepChars, beginsWith]
    | false =>
      have hbw : beginsWith sepChars
          (c :: (split0 sepChars cs ++ '\n' :: '\n' :: '-' :: '-' :: '-' :: σ)) = false := by
        by_cases hc : c = '\n'
        · subst hc
          have ht : beginsWith sepTail cs = false := by
            simpa [sepChars, sepTail, beginsWith] using hb
          simpa [sepChars, sepTail, beginsWith] using
            beginsWith_sepTail_split0 cs σ ht
        · have : (('\n' : Char) == c) = false := by
            rw [beq_eq_false_iff_ne]
            exact fun hh => hc hh.symm
          simp [sepChars, beginsWith, this]
      simp only [split0, hb, Bool.false_eq_true, if_false, List.cons_append, hbw, ih]

/-- A separator-free text is untouched by stripping. -/
lemma split0_of_not_contains (sep l : List Char) (h : containsSeq sep l = false) :
    split0 sep l = l := by
  induction l with
  | nil => simp [split0]
  | cons c cs ih =>
    simp only [containsSeq, Bool.or_eq_false_iff] at h
    simp [split0, h.1, ih h.2]

/-- Strip-after-transition equals strip: one status transition never moves the
stripping point. -/
lemma strip_status_edit (t s : String) :
    strip_status (edit_status_text t s) = strip_status t := by
  unfold edit_status_text strip_status
  have hdata : (String.mk (split0 sepChars t.data) ++ "\n\n---\n" ++ s).data =
      split0 sepChars t.data ++ '\n' :: '\n' :: '-' :: '-' :: '-' :: ('\n' :: s.data) := by
    rw [String.data_append, String.data_append]
    rw [List.append_assoc]
    rfl
  rw [hdata, split0_append_sep]

/-! ### C3: status suffix round-trip -/

/-- C3 (counterexample): the claim quantifies over every forwarded suggestion
body, but a body whose sender content itself contains the separator
`"\n\n---"` (here the reachable body rendered from the text `"---stripped"`)
is truncated by the first status transition: stripping afterwards does not
recover the original rendered content. -/
theorem C3_roundtrip_counterexample :
    strip_status (edit_status_text (suggestionBody msgC3) "🚫 User blocked by Admin @mod")
      ≠ suggestionBody msgC3 := by decide

/-- C3 (amended): for every rendered body that does not already contain the
separator `"\n\n---"`, stripping after any sequence of status transitions
recovers the body, and applying the same transition twice yields the same
final text as applying it once (for all bodies). -/
theorem C3_status_roundtrip (t : String) (sts : List String)
    (h : hasSep t = false) :
    strip_status (sts.foldl edit_status_text t) = t ∧
    ∀ (u s : String), edit_status_text (edit_status_text u s) s = edit_status_text u s := by
  constructor
  · have key : ∀ (l : List String) (u : String),
        strip_status (l.foldl edit_status_text u) = strip_status u := by
      intro l
      induction l with
      | nil => intro u; rfl
      | cons a as ih =>
        intro u
        simpa [List.foldl] using (ih (edit_status_text u a)).trans (strip_status_edit u a)
    rw [key sts t]
    have h' : containsSeq sepChars t.data = false := h
    unfold strip_status
    rw [split0_of_not_contains sepChars t.data h']
  · intro u s
    have h1 : edit_status_text (edit_status_text u s) s =
        strip_status (edit_status_text u s) ++ "\n\n---\n" ++ s := rfl
    rw [h1, strip_status_edit u s]
    rfl

theorem C3_status_roundtrip_witness :
    hasSep "📝 New suggestion from: Alice\nID: <code>500</code>\n\nAdd dark mode" = false ∧
    (strip_status (["🚫 blocked", "🟢 unblocked", "✅ replied", "❌ cancelled"].foldl
        edit_status_text "📝 New suggestion from: Alice\nID: <code>500</code>\n\nAdd dark mode") =
      "📝 New suggestion from: Alice\nID: <code>500</code>\n\nAdd dark mode" ∧
     ∀ (u s : String), edit_status_text (edit_status_text u s) s = edit_status_text u s) :=
  ⟨by decide,
   C3_status_roundtrip "📝 New suggestion from: Alice\nID: <code>500</code>\n\nAdd dark mode"
     ["🚫 blocked", "🟢 unblocked", "✅ replied", "❌ cancelled"] (by decide)⟩

/-! ### C4: block store contract -/

/-- C4: for a sender id not currently blocked, blocking makes `is_user_blocked`
true; a subsequent unblock returns `true` and leaves it false; unblocking the
never-blocked id returns `false` and leaves it false; and blocking an
already-blocked id leaves the store unchanged (and, being a total function,
raises nothing). -/
theorem C4_block_store (db : BlockDB) (uid : Int)
    (hfree : is_user_blocked db uid = false) :
    is_user_blocked (block_user false db uid) uid = true ∧
    (unban_user false (block_user false db uid) uid).2 = true ∧
    is_user_blocked (unban_user false (block_user false db uid) uid).1 uid = false ∧
    (unban_user false db uid).2 = false ∧
    is_user_blocked (unban_user false db uid).1 uid = false ∧
    block_user false (block_user false db uid) uid = block_user false db uid := by
  have hmem : uid ∉ db := by simpa [is_user_blocked] using hfree
  refine ⟨?_, ?_, ?_, ?_, ?_, ?_⟩
  · simp [is_user_blocked, block_user, hmem]
  · simp [unban_user, block_user, hmem]
  · simp [is_user_blocked, unban_user, block_user, hmem, List.mem_filter]
  · simp [unban_user, hmem]
  · simp [is_user_blocked, unban_user, List.mem_filter]
  · simp [block_user, hmem, List.mem_append]

theorem C4_block_store_witness :
    is_user_blocked [] 3 = false ∧
    (is_user_blocked (block_user false [] 3) 3 = true ∧
     (unban_user false (block_user false [] 3) 3).2 = true ∧
     is_user_blocked (unban_user false (block_user false [] 3) 3).1 3 = false ∧
     (unban_user false [] 3).2 = false ∧
     is_user_blocked (unban_user false [] 3).1 3 = false ∧
     block_user false (block_user false [] 3) 3 = block_user false [] 3) :=
  ⟨by decide, C4_block_store [] 3 (by decide)⟩

/-! ### Router lemmas -/

/-- With no session recorded for the sender's key, the dispatcher can never
reach `handle_unban_command`: any text message is captured by the
suggestion handler first. -/
lemma dispatch_none_ne_unban (msg : Msg) :
    dispatchMessage none msg ≠ Route.unbanCmd := by
  unfold dispatchMessage
  split_ifs with h1 h2 h3 h4 h5
  · decide
  · decide
  · decide
  · decide
  · exfalso
    apply h2
    cases htext : msg.text with
    | none => simp [isUnbanCmd, htext] at h5
    | some t => simp [htext]
  · decide

/-- A message from an admin whose (chat, sender) key holds no session changes
neither store, and produces no `bot.send_message` call: it is greeted
(`/start`) or silently dropped by the suggestion handler. -/
theorem stepMessage_admin_no_session (cfg : Config) (db : BlockDB) (ss : Sessions)
    (msg : Msg) (o : Oracle)
    (hadm : msg.from_id ∈ cfg.ADMIN_IDS)
    (hsess : getSession ss (msg.chat_id, msg.from_id) = none) :
    (stepMessage cfg db ss msg o).2.1 = db ∧
    (stepMessage cfg db ss msg o).2.2 = ss ∧
    ((stepMessage cfg db ss msg o).1.all fun e => !e.isSend) = true := by
  simp only [stepMessage, hsess]
  cases hroute : dispatchMessage none msg with
  | start =>
    refine ⟨rfl, rfl, ?_⟩
    by_cases hb : is_user_blocked db msg.from_id <;>
      simp [handle_start, hb, hadm, Effect.isSend]
  | suggestion => simp [handle_suggestion, hadm]
  | cancelReply => exact ⟨rfl, rfl, rfl⟩
  | processReply => exact ⟨rfl, rfl, rfl⟩
  | unbanCmd => exact absurd hroute (dispatch_none_ne_unban msg)
  | unmatched => exact ⟨rfl, rfl, rfl⟩

/-- A token starting with `unban_` starts with neither `reply_` nor
`block_`: the first characters differ. -/
lemma strStarts_unban_excl (s : String) (h : strStarts s "unban_" = true) :
    strStarts s "reply_" = false ∧ strStarts s "block_" = false := by
  have hu : "unban_".data = ['u', 'n', 'b', 'a', 'n', '_'] := by decide
  have hr : "reply_".data = ['r', 'e', 'p', 'l', 'y', '_'] := by decide
  have hbl : "block_".data = ['b', 'l', 'o', 'c', 'k', '_'] := by decide
  unfold strStarts at h ⊢
  rw [hu] at h
  rw [hr, hbl]
  cases hd : s.data with
  | nil => rw [hd] at h; simp [beginsWith] at h
  | cons c cs =>
    rw [hd] at h
    simp only [beginsWith, Bool.and_eq_true, beq_iff_eq] at h
    obtain ⟨hc, -⟩ := h
    subst hc
    have hru : (('r' : Char) == 'u') = false := by decide
    have hbu : (('b' : Char) == 'u') = false := by decide
    constructor <;> simp [beginsWith, hru, hbu]

/-- Looking up a freshly stored session at its own key. -/
lemma getSession_set (ss : Sessions) (k : Int × Int) (d : StateData) :
    getSession (setSession ss k d) k = some d := by
  simp [getSession, setSession, List.find?]

/-- A non-matching head entry does not affect a session lookup. -/
lemma getSession_cons_ne (e : (Int × Int) × StateData) (t : Sessions) (k : Int × Int)
    (he : (e.1.1 == k.1 && e.1.2 == k.2) = false) :
    getSession (e :: t) k = getSession t k := by
  unfold getSession
  rw [List.find?_cons_of_neg _ (by simp [he])]

/-- Removing a key removes its session. -/
lemma getSession_remove (ss : Sessions) (k : Int × Int) :
    getSession (removeSession ss k) k = none := by
  induction ss with
  | nil => rfl
  | cons e t ih =>
    cases he : (e.1.1 == k.1 && e.1.2 == k.2) with
    | true =>
      have hstep : removeSession (e :: t) k = removeSession t k := by
        unfold removeSession
        rw [List.filter_cons, he]
        simp
      rw [hstep]
      exact ih
    | false =>
      have hstep : removeSession (e :: t) k = e :: removeSession t k := by
        unfold removeSession
        rw [List.filter_cons, he]
        simp
      rw [hstep, getSession_cons_ne e _ k he]
      exact ih

/-- A cancel command is never the start command, and always carries text. -/
lemma isCancelCmd_facts (msg : Msg) (h : isCancelCmd msg = true) :
    isStartCmd msg = false ∧ msg.text.isSome = true := by
  cases htext : msg.text with
  | none => simp [isCancelCmd, htext] at h
  | some t =>
    simp only [isCancelCmd, htext] at h
    refine ⟨?_, rfl⟩
    simp only [isStartCmd, htext]
    cases hb : (t == "/cancel") with
    | true =>
      have ht : t = "/cancel" := eq_of_beq hb
      subst ht
      decide
    | false =>
      rw [hb, Bool.false_or] at h
      rw [strStarts] at h
      have hcd : "/cancel ".data = ['/', 'c', 'a', 'n', 'c', 'e', 'l', ' '] := by decide
      rw [hcd] at h
      cases hd : t.data with
      | nil => rw [hd] at h; exact absurd h (by decide)
      | cons c0 r0 =>
        cases hr0 : r0 with
        | nil =>
          rw [hd, hr0] at h
          simp [beginsWith] at h
        | cons c1 r1 =>
          rw [hd, hr0] at h
          simp only [beginsWith, Bool.and_eq_true, beq_iff_eq] at h
          obtain ⟨h0, h1, -⟩ := h
          refine Bool.or_eq_false_iff.mpr ⟨?_, ?_⟩
          · rw [beq_eq_false_iff_ne]
            intro heq
            rw [heq] at hd
            rw [hr0] at hd
            have hsd : "/start".data = ['/', 's', 't', 'a', 'r', 't'] := by decide
            rw [hsd] at hd
            injection hd with hx hrest
            injection hrest with hy hrest2
            exact absurd (hy.trans h1.symm) (by decide)
          · rw [strStarts]
            have hsd : "/start ".data = ['/', 's', 't', 'a', 'r', 't', ' '] := by decide
            rw [hsd, hd, hr0]
            simp only [beginsWith]
            rw [← h1]
            have hsc : (('s' : Char) == 'c') = false := by decide
            simp [hsc]


/-- C1: while admin `A`'s session is recorded under the key `(c, A)`, a free
text from any admin whose own (chat, sender) key holds no session — another
moderator B in the same destination, or A in a different chat — leaves the
session store unchanged (so A's session stays `AwaitingReply` with its
recorded fields intact) and delivers nothing by `bot.send_message`; moreover
the in-handler ownership guard of `process_admin_group_reply`
(src/main.py:415-417) ignores any mismatching event, returning no effects and
keeping the session. -/
theorem C1_other_admin_text_ignored (cfg : Config) (db : BlockDB) (ss : Sessions)
    (msg : Msg) (o : Oracle) (c A : Int) (data : StateData)
    (hA : getSession ss (c, A) = some data)
    (hadm : msg.from_id ∈ cfg.ADMIN_IDS)
    (hother : getSession ss (msg.chat_id, msg.from_id) = none) :
    (stepMessage cfg db ss msg o).2.2 = ss ∧
    getSession (stepMessage cfg db ss msg o).2.2 (c, A) = some data ∧
    ((stepMessage cfg db ss msg o).1.all fun e => !e.isSend) = true ∧
    ∀ (m : Msg) (d : StateData) (o' : Oracle),
      sessionComplete d = true →
      (some m.chat_id ≠ d.group_chat_id ∨ some m.from_id ≠ d.admin_id) →
      process_admin_group_reply m d o' = ([], some d) := by
  obtain ⟨hdb, hss, heff⟩ := stepMessage_admin_no_session cfg db ss msg o hadm hother
  refine ⟨hss, by rw [hss]; exact hA, heff, ?_⟩
  intro m d o' hc hmis
  simp only [process_admin_group_reply, hc]
  rw [if_neg (by decide), if_pos hmis]

theorem C1_other_admin_text_ignored_witness :
    (stepMessage cfg0 [] ssA msgB oracle0).2.2 = ssA ∧
    getSession (stepMessage cfg0 [] ssA msgB oracle0).2.2 (-100, 1) = some data0 ∧
    ((stepMessage cfg0 [] ssA msgB oracle0).1.all fun e => !e.isSend) = true := by
  have h := C1_other_admin_text_ignored cfg0 [] ssA msgB oracle0 (-100) 1 data0
    (by decide) (by decide) (by decide)
  exact ⟨h.1, h.2.1, h.2.2.1⟩

/-! ### C2: session cleared before delivery is attempted -/

/-- C2: when the owning admin's non-command text is processed against a
complete matching session, the very first effect is the `state.clear()` and
the delivery attempt to the target is the second, so the session result is
`none` (Idle) regardless of the delivery outcome; and any further text whose
(chat, sender) key holds no session produces no `bot.send_message` at all, so
a second reply text cannot be delivered against the same session. -/
theorem C2_clear_before_delivery (msg : Msg) (data : StateData) (o : Oracle)
    (txt : String)
    (hc : sessionComplete data = true)
    (hchat : data.group_chat_id = some msg.chat_id)
    (hadm : data.admin_id = some msg.from_id)
    (htxt : msg.text = some txt)
    (hnc : strStarts txt "/" = false) :
    (∃ rest, (process_admin_group_reply msg data o).1 =
      Effect.clearState ::
        Effect.sendMessage (data.target_user_id.getD 0)
          ("ℹ️ Reply from Administration:\n\n" ++ txt) :: rest) ∧
    (process_admin_group_reply msg data o).2 = none ∧
    ∀ (cfg : Config) (db : BlockDB) (ss : Sessions) (m2 : Msg) (o2 : Oracle),
      m2.from_id ∈ cfg.ADMIN_IDS →
      getSession ss (m2.chat_id, m2.from_id) = none →
      ((stepMessage cfg db ss m2 o2).1.all fun e => !e.isSend) = true := by
  have hmis : ¬(some msg.chat_id ≠ data.group_chat_id ∨ some msg.from_id ≠ data.admin_id) := by
    push_neg
    exact ⟨hchat.symm, hadm.symm⟩
  refine ⟨?_, ?_, ?_⟩
  · simp only [process_admin_group_reply, hc, htxt, Option.getD_some]
    rw [if_neg (by decide), if_neg hmis, if_neg (by rw [hnc]; decide)]
    simp only [List.cons_append]
    exact ⟨_, rfl⟩
  · simp only [process_admin_group_reply, hc, htxt, Option.getD_some]
    rw [if_neg (by decide), if_neg hmis, if_neg (by rw [hnc]; decide)]
  · intro cfg db ss m2 o2 hadm2 hsess2
    exact (stepMessage_admin_no_session cfg db ss m2 o2 hadm2 hsess2).2.2

theorem C2_clear_before_delivery_witness :
    (process_admin_group_reply msgA data0 oracle0).2 = none ∧
    ∃ rest, (process_admin_group_reply msgA data0 oracle0).1 =
      Effect.clearState ::
        Effect.sendMessage (data0.target_user_id.getD 0)
          ("ℹ️ Reply from Administration:\n\n" ++ "Thanks, fixed!") :: rest := by
  have h := C2_clear_before_delivery msgA data0 oracle0 "Thanks, fixed!"
    (by decide) (by decide) (by decide) (by decide) (by decide)
  exact ⟨h.2.1, h.1⟩

/-! ### C10: moderators cannot submit suggestions -/

/-- C10: a text or photo message from an admin holding no open session is
routed to the suggestion handler (unless it is the `/start` command, which
the start handler takes first), which returns immediately: no forwarding, no
response, no store or session change; the handler-level early return holds
for every admin message. -/
theorem C10_admin_content_dropped (cfg : Config) (db : BlockDB) (ss : Sessions)
    (msg : Msg) (o : Oracle)
    (hadm : msg.from_id ∈ cfg.ADMIN_IDS)
    (hsess : getSession ss (msg.chat_id, msg.from_id) = none)
    (hcontent : (msg.text.isSome || msg.photo) = true)
    (hns : isStartCmd msg = false) :
    stepMessage cfg db ss msg o = ([], db, ss) ∧
    handle_suggestion cfg db msg o = ([], db) := by
  have hh : handle_suggestion cfg db msg o = ([], db) := by
    simp [handle_suggestion, hadm]
  refine ⟨?_, hh⟩
  simp only [stepMessage, hsess]
  have hroute : dispatchMessage none msg = Route.suggestion := by
    simp [dispatchMessage, hns, hcontent]
  rw [hroute]
  simp [hh]

theorem C10_admin_content_dropped_witness :
    stepMessage cfg0 [] [] msgB oracle0 = ([], [], []) ∧
    handle_suggestion cfg0 [] msgB oracle0 = ([], []) :=
  C10_admin_content_dropped cfg0 [] [] msgB oracle0
    (by decide) (by decide) (by decide) (by decide)

/-! ### C5: the unban command never reaches its handler -/

/-- C5 (failing input): an admin with no open session sends `/unban 111`
while 111 is blocked.  The dispatcher routes the text to the suggestion
handler (registered before `handle_unban_command`, with filters
`F.text | F.photo` and `StateFilter(None)` that both match), which silently
drops it because the sender is an admin: nothing is unblocked and nothing is
answered.  Had `handle_unban_command` been reached, it would have unblocked
111 and confirmed — so the moderator-command rule does not precede the
suggestion rule as the spec's dispatch order requires. -/
theorem C5_unban_command_swallowed :
    dispatchMessage none msgUnban = Route.suggestion ∧
    dispatchMessage none msgUnban ≠ Route.unbanCmd ∧
    stepMessage cfg0 [(111 : Int)] [] msgUnban oracle0 = ([], [(111 : Int)], []) ∧
    handle_unban_command cfg0 [(111 : Int)] msgUnban oracle0 =
      ([Effect.replyMessage (-100) "✅ User <code>111</code> has been unblocked."], []) := by
  decide

/-! ### C6: cancel is honored only by the session's owner -/

/-- C6: a `/cancel` while a session is `AwaitingReply` is honored only when
the issuing identity and chat equal the session's recorded owner and
destination.  Under the (chat, user)-keyed FSM, a non-owner admin in the
session's destination — or the owner in a different chat — holds no session
at their own key, so the `/cancel` is captured by the suggestion handler and
dropped with no effects at all: no transition, no visible response of any
kind, nothing revealing the session's existence.  When the issuer's key holds
the session and its recorded owner and destination match the issuer, the
cancel is honored (the effects begin with the `state.clear()` and the session
is removed).  The third conjunct shows those hypotheses describe every
session the program records: the reply branch of `handle_admin_action`
stores, under the key (message chat, acting admin), exactly that chat as
`group_chat_id` and that admin as `admin_id`. -/
theorem C6_cancel_owner_only (cfg : Config) (db : BlockDB) (ss : Sessions)
    (msg : Msg) (o : Oracle) (c A : Int) (data : StateData)
    (hA : getSession ss (c, A) = some data)
    (hcan : isCancelCmd msg = true) :
    (msg.from_id ∈ cfg.ADMIN_IDS → getSession ss (msg.chat_id, msg.from_id) = none →
      stepMessage cfg db ss msg o = ([], db, ss)) ∧
    (msg.chat_id = c → msg.from_id = A →
      data.admin_id = some A → data.group_chat_id = some c →
      (stepMessage cfg db ss msg o).1.head? = some Effect.clearState ∧
      getSession (stepMessage cfg db ss msg o).2.2 (c, A) = none) ∧
    (∀ (cb : Callback) (m : CbMsg) (o' : Oracle) (uid : Int),
      cb.from_id ∈ cfg.ADMIN_IDS → cb.message = some m →
      cfg.TARGET_GROUP_ID = some m.chat_id →
      strStarts cb.data "block_" = false →
      pyInt? (strDrop cb.data 6) = some uid →
      o'.promptSendOk = true →
      getSession (handle_admin_action cfg db ss cb o').2.2 (m.chat_id, cb.from_id) =
        some { target_user_id := some uid, group_chat_id := some m.chat_id,
               prompt_message_id := some o'.promptMessageId,
               original_message_id := some m.message_id,
               admin_id := some cb.from_id }) := by
  obtain ⟨hns, hts⟩ := isCancelCmd_facts msg hcan
  refine ⟨?_, ?_, ?_⟩
  · intro hadm hsess
    simp only [stepMessage, hsess]
    have hroute : dispatchMessage none msg = Route.suggestion := by
      simp [dispatchMessage, hns, hts]
    rw [hroute]
    simp [handle_suggestion, hadm]
  · intro hchat hfrom hdadm hdchat
    subst hchat
    subst hfrom
    simp only [stepMessage, hA]
    have hroute : dispatchMessage (some data) msg = Route.cancelReply := by
      simp [dispatchMessage, hns, hcan]
    rw [hroute]
    have hmatch : ¬(some msg.from_id ≠ data.admin_id ∨ some msg.chat_id ≠ data.group_chat_id) := by
      push_neg
      exact ⟨hdadm.symm, hdchat.symm⟩
    have h2 : (cancel_reply_state msg data o).2 = none := by
      simp only [cancel_reply_state]
      rw [if_neg hmatch]
    constructor
    · simp only [cancel_reply_state]
      rw [if_neg hmatch]
      rfl
    · simp only [h2, setSessionOpt]
      exact getSession_remove ss (msg.chat_id, msg.from_id)
  · intro cb m o' uid hadm hm hg hnb hparse hpok
    simp [handle_admin_action, hadm, hm, hg, hnb, hparse, hpok, getSession_set]

theorem C6_cancel_owner_only_witness :
    stepMessage cfg0 [] ssA msgCancelWrong oracle0 = ([], [], ssA) ∧
    (stepMessage cfg0 [] ssA msgCancelOwn oracle0).1.head? = some Effect.clearState ∧
    getSession (stepMessage cfg0 [] ssA msgCancelOwn oracle0).2.2 (-100, 1) = none := by
  have h1 := C6_cancel_owner_only cfg0 [] ssA msgCancelWrong oracle0 (-100) 1 data0
    (by decide) (by decide)
  have h2 := C6_cancel_owner_only cfg0 [] ssA msgCancelOwn oracle0 (-100) 1 data0
    (by decide) (by decide)
  refine ⟨h1.1 (by decide) (by decide), ?_, ?_⟩
  · exact (h2.2.1 (by decide) (by decide) (by decide) (by decide)).1
  · exact (h2.2.1 (by decide) (by decide) (by decide) (by decide)).2

/-! ### C7: persistence failure during block/unblock -/

/-- C7 (counterexample): with a failing persistence layer, a Block button
press leaves the store unchanged but still answers the moderator with the
success confirmation "User 5 blocked." — the operation is not reported as
failed. -/
theorem C7_block_failure_counterexample :
    (stepCallback cfg0 [] [] cbBlock oracleDbFail).1.head? =
      some (Effect.answerCallback "User 5 blocked." true) ∧
    (stepCallback cfg0 [] [] cbBlock oracleDbFail).2.1 = ([] : BlockDB) := by
  decide

/-- C7 (amended): a persistence failure is absorbed locally (the handlers
are total and the store is left unchanged, so no partial state is
committed); for an unblock the moderator is told the operation did not
succeed, but for a block the moderator is still given the success
confirmation. -/
theorem C7_store_failure (cfg : Config) (db : BlockDB) (ss : Sessions)
    (cb : Callback) (m : CbMsg) (o : Oracle) (uid : Int)
    (hfail : o.dbFail = true)
    (hadm : cb.from_id ∈ cfg.ADMIN_IDS)
    (hm : cb.message = some m)
    (hg : cfg.TARGET_GROUP_ID = some m.chat_id)
    (hparse : pyInt? (strDrop cb.data 6) = some uid) :
    (strStarts cb.data "block_" = true →
      (stepCallback cfg db ss cb o).2.1 = db ∧
      (stepCallback cfg db ss cb o).2.2 = ss ∧
      (stepCallback cfg db ss cb o).1.head? =
        some (Effect.answerCallback ("User " ++ toString uid ++ " blocked.") true)) ∧
    (strStarts cb.data "unban_" = true →
      stepCallback cfg db ss cb o =
        ([Effect.answerCallback
            ("User " ++ toString uid ++ " was not found in the block list or could not be unblocked.")
            true], db, ss)) := by
  constructor
  · intro hblock
    have hrb : (strStarts cb.data "reply_" || strStarts cb.data "block_") = true := by
      rw [hblock, Bool.or_true]
    simp only [stepCallback, hrb, if_true]
    simp [handle_admin_action, hadm, hm, hg, hparse, hblock, block_user, hfail]
  · intro hunban
    have hexcl := strStarts_unban_excl cb.data hunban
    simp only [stepCallback, hexcl.1, hexcl.2, Bool.or_self, hunban, if_true,
      Bool.false_eq_true, if_false]
    simp [handle_unban_button, hadm, hm, hg, hparse, unban_user, hfail]

theorem C7_store_failure_witness :
    (stepCallback cfg0 [] [] cbBlock oracleDbFail).2.1 = ([] : BlockDB) ∧
    (stepCallback cfg0 [] [] cbBlock oracleDbFail).1.head? =
      some (Effect.answerCallback ("User " ++ toString (5 : Int) ++ " blocked.") true) := by
  have h := (C7_store_failure cfg0 [] [] cbBlock cbMsg0 oracleDbFail 5
    (by decide) (by decide) (by decide) (by decide) (by decide)).1 (by decide)
  exact ⟨h.1, h.2.2⟩

/-! ### C8: suggestion delivery failure semantics -/

/-- C8: for a non-admin, non-blocked sender with a configured destination,
the block store is never mutated and the session store is untouched; on a
delivery failure the sender gets exactly one reply — an apology
distinguishing the destination problem (chat not found / bot kicked) from a
transient error — and no acknowledgment; on success the sender gets exactly
one acknowledgment. -/
theorem C8_suggestion_failure_semantics (cfg : Config) (db : BlockDB) (msg : Msg)
    (o : Oracle)
    (hnadm : msg.from_id ∉ cfg.ADMIN_IDS)
    (hnb : is_user_blocked db msg.from_id = false)
    (hg : truthyO cfg.TARGET_GROUP_ID = true)
    (hcontent : (msg.text.isSome || msg.photo) = true) :
    (handle_suggestion cfg db msg o).2 = db ∧
    (∀ (ss : Sessions), isStartCmd msg = false →
      getSession ss (msg.chat_id, msg.from_id) = none →
      (stepMessage cfg db ss msg o).2.2 = ss) ∧
    (o.forwardOutcome = .ok →
      (handle_suggestion cfg db msg o).1.filter (fun e => e.isReply) =
        [Effect.replyMessage msg.chat_id "Thank you! Your suggestion has been sent to the administration."]) ∧
    (o.forwardOutcome = .chatNotFound ∨ o.forwardOutcome = .botKicked →
      (handle_suggestion cfg db msg o).1.filter (fun e => e.isReply) =
        [Effect.replyMessage msg.chat_id "Sorry, could not send your suggestion. There might be an issue with the moderation group."]) ∧
    (o.forwardOutcome = .otherApi →
      (handle_suggestion cfg db msg o).1.filter (fun e => e.isReply) =
        [Effect.replyMessage msg.chat_id "Sorry, a technical error occurred while sending your suggestion. Please try again later."]) ∧
    (o.forwardOutcome = .unknownErr →
      (handle_suggestion cfg db msg o).1.filter (fun e => e.isReply) =
        [Effect.replyMessage msg.chat_id "Sorry, an unexpected error occurred while sending your suggestion."]) ∧
    "Sorry, could not send your suggestion. There might be an issue with the moderation group." ≠
      "Sorry, a technical error occurred while sending your suggestion. Please try again later." := by
  have hattempted : (msg.photo || msg.text.isSome) = true := by
    rw [Bool.or_comm]
    exact hcontent
  refine ⟨?_, ?_, ?_, ?_, ?_, ?_, by decide⟩
  · simp [handle_suggestion, hnadm, hnb, hg]
  · intro ss hns hsess
    simp only [stepMessage, hsess]
    have hroute : dispatchMessage none msg = Route.suggestion := by
      simp [dispatchMessage, hns, hcontent]
    rw [hroute]
  · intro hoc
    cases hp : msg.photo with
    | true => simp [handle_suggestion, hnadm, hnb, hg, hp, hoc, Effect.isReply]
    | false =>
      have htx : msg.text.isSome = true := by
        cases hts : msg.text.isSome
        · rw [hts, hp] at hcontent
          exact absurd hcontent (by decide)
        · rfl
      simp [handle_suggestion, hnadm, hnb, hg, hp, htx, hoc, Effect.isReply]
  · intro hoc
    rcases hoc with hoc | hoc <;>
    · cases hp : msg.photo with
      | true => simp [handle_suggestion, hnadm, hnb, hg, hp, hoc, Effect.isReply]
      | false =>
        have htx : msg.text.isSome = true := by
          cases hts : msg.text.isSome
          · rw [hts, hp] at hcontent
            exact absurd hcontent (by decide)
          · rfl
        simp [handle_suggestion, hnadm, hnb, hg, hp, htx, hoc, Effect.isReply]
  · intro hoc
    cases hp : msg.photo with
    | true => simp [handle_suggestion, hnadm, hnb, hg, hp, hoc, Effect.isReply]
    | false =>
      have htx : msg.text.isSome = true := by
        cases hts : msg.text.isSome
        · rw [hts, hp] at hcontent
          exact absurd hcontent (by decide)
        · rfl
      simp [handle_suggestion, hnadm, hnb, hg, hp, htx, hoc, Effect.isReply]
  · intro hoc
    cases hp : msg.photo with
    | true => simp [handle_suggestion, hnadm, hnb, hg, hp, hoc, Effect.isReply]
    | false =>
      have htx : msg.text.isSome = true := by
        cases hts : msg.text.isSome
        · rw [hts, hp] at hcontent
          exact absurd hcontent (by decide)
        · rfl
      simp [handle_suggestion, hnadm, hnb, hg, hp, htx, hoc, Effect.isReply]

theorem C8_suggestion_failure_semantics_witness :
    (handle_suggestion cfg0 [] msgSender oracleCfgFail).2 = ([] : BlockDB) ∧
    (handle_suggestion cfg0 [] msgSender oracleCfgFail).1.filter (fun e => e.isReply) =
      [Effect.replyMessage msgSender.chat_id "Sorry, could not send your suggestion. There might be an issue with the moderation group."] := by
  have h := C8_suggestion_failure_semantics cfg0 [] msgSender oracleCfgFail
    (by decide) (by decide) (by decide) (by decide)
  exact ⟨h.1, h.2.2.2.1 (Or.inl (by decide))⟩

/-! ### C9: malformed action tokens -/

/-- C9 (counterexample): a callback token matching none of the action shapes
(`reply_`/`block_`/`unban_`) reaches no handler at all: the router drops it
with no effects, so no visible error message is shown, contrary to the
claim. -/
theorem C9_malformed_counterexample :
    (strStarts cbGarbage.data "reply_" || strStarts cbGarbage.data "block_" ||
      strStarts cbGarbage.data "unban_") = false ∧
    stepCallback cfg0 [] [] cbGarbage oracle0 = ([], [], []) := by
  decide

/-- C9 (amended): a token carrying a recognized action kind whose id fails to
parse is answered with the visible "Error: Invalid user ID." alert and
dropped with no store or session change (and no crash: the router is total);
a token matching no recognized kind is dropped silently, also with no state
change and no crash, but without any visible error. -/
theorem C9_malformed_action (cfg : Config) (db : BlockDB) (ss : Sessions)
    (cb : Callback) (m : CbMsg) (o : Oracle)
    (hadm : cb.from_id ∈ cfg.ADMIN_IDS)
    (hm : cb.message = some m)
    (hg : cfg.TARGET_GROUP_ID = some m.chat_id)
    (hbad : pyInt? (strDrop cb.data 6) = none) :
    ((strStarts cb.data "reply_" || strStarts cb.data "block_" ||
        strStarts cb.data "unban_") = true →
      stepCallback cfg db ss cb o =
        ([Effect.answerCallback "Error: Invalid user ID." true], db, ss)) ∧
    ((strStarts cb.data "reply_" || strStarts cb.data "block_" ||
        strStarts cb.data "unban_") = false →
      stepCallback cfg db ss cb o = ([], db, ss)) := by
  constructor
  · intro hshape
    by_cases hrb : (strStarts cb.data "reply_" || strStarts cb.data "block_") = true
    · simp only [stepCallback, hrb, if_true]
      simp [handle_admin_action, hadm, hm, hg, hbad]
    · have hun : strStarts cb.data "unban_" = true := by
        cases h3 : strStarts cb.data "unban_"
        · rw [h3, Bool.or_false] at hshape
          exact absurd hshape hrb
        · rfl
      have hexcl := strStarts_unban_excl cb.data hun
      simp only [stepCallback, hexcl.1, hexcl.2, Bool.or_self, hun, if_true,
        Bool.false_eq_true, if_false]
      simp [handle_unban_button, hadm, hm, hg, hbad]
  · intro hshape
    simp only [Bool.or_eq_false_iff] at hshape
    obtain ⟨⟨h1, h2⟩, h3⟩ := hshape
    simp [stepCallback, h1, h2, h3]

theorem C9_malformed_action_witness :
    stepCallback cfg0 [] [] cbBadId oracle0 =
      ([Effect.answerCallback "Error: Invalid user ID." true], [], []) :=
  (C9_malformed_action cfg0 [] [] cbBadId cbMsg0 oracle0
    (by decide) (by decide) (by decide) (by decide)).1 (by decide)

end Predlozka
